import Mathlib

/-!
Verification of the chat client of `frontend/src/App.jsx` (the `ChatPanel`
component) and of the Memory Store interface of the spec, as a shallow
embedding in Lean.

The embedding mirrors the source:
  * `Message` is one entry of the `messages` list (`role`, `content`, and the
    `streaming` flag; a missing `streaming` field in JS is falsy, modelled as
    `false`).
  * `ClientState` collects the React state the handlers read and write:
    `messages`, `history`, `input`, `loading`, `streaming`, `isRecording`,
    `chatId`, `searchMode`, the selected provider/model and `language`.
  * `onMessage` is the body of `ws.onmessage` (App.jsx lines 1263 to 1306),
    dispatching on the string `data.type` exactly as the if/else chain does.
  * `sendMessage` (lines 1392 to 1431) returns the new state together with the
    list of WebSocket payloads sent and the list of HTTP paths requested.
  * `toggleRecording` (lines 1323 to 1389) returns the new state, the new
    audio-capture resources and the payloads sent.
  * the sample conversion of `processor.onaudioprocess` (lines 1344 to 1354)
    is modelled over the rationals, which contain every finite double and make
    the clamp-then-scale arithmetic exact.
-/

/-- One chat message as stored in the `messages` React state. -/
structure Message where
  role : String
  content : String
  streaming : Bool
deriving Repr, DecidableEq

/-- The React state of `ChatPanel` that the verified handlers touch. -/
structure ClientState where
  messages : List Message
  history : Option (List Message)
  input : String
  loading : Bool
  streaming : Bool
  isRecording : Bool
  chatId : Option String
  searchMode : String
  provider : String
  model : String
  language : String
deriving Repr, DecidableEq

/-- A parsed server-to-client WebSocket event: the `type` discriminator plus
the `text` and `data` fields the handler reads. -/
structure WsEvent where
  type : String
  text : String
  data : String
deriving Repr, DecidableEq

/-- A JSON scalar appearing as a field value of a client-to-server payload. -/
inductive JVal where
  | str (s : String)
  | bool (b : Bool)
deriving Repr, DecidableEq

/-- A client-to-server WebSocket message: a JSON object (an ordered list of
fields) or a raw binary audio frame. -/
inductive WsMsg where
  | json (fields : List (String × JVal))
  | binary (samples : List Int)
deriving Repr, DecidableEq

/-- Is the last message of the list an assistant message with its `streaming`
flag set? This is the `last && last.role === 'assistant' && last.streaming`
test of the `token` and `complete` branches. -/
def isStreamingAssistant : Option Message → Bool
  | some m => m.role == "assistant" && m.streaming
  | none => false

/-- The `setMessages` updater of the `token` branch (App.jsx 1271 to 1280):
append the chunk to a trailing streaming assistant message, or start a new
streaming assistant message. -/
def tokenUpdate (prev : List Message) (text : String) : List Message :=
  match prev.getLast? with
  | some last =>
      if last.role == "assistant" && last.streaming then
        prev.dropLast ++ [{ last with content := last.content ++ text }]
      else
        prev ++ [⟨"assistant", text, true⟩]
  | none => prev ++ [⟨"assistant", text, true⟩]

/-- The `setMessages` updater of the `complete` branch (App.jsx 1284 to 1293):
replace the content of a trailing streaming assistant message wholesale and
clear its flag, or append a fresh assistant message. -/
def completeUpdate (prev : List Message) (text : String) : List Message :=
  match prev.getLast? with
  | some last =>
      if last.role == "assistant" && last.streaming then
        prev.dropLast ++ [{ last with content := text, streaming := false }]
      else
        prev ++ [⟨"assistant", text, false⟩]
  | none => prev ++ [⟨"assistant", text, false⟩]

/-- The body of `ws.onmessage` (App.jsx 1263 to 1306): dispatch on the string
`data.type`; any unrecognized type falls through the if/else chain and leaves
the state untouched (the `info` branch only logs, the `audio` branch only
plays sound). -/
def onMessage (s : ClientState) (ev : WsEvent) : ClientState :=
  if ev.type == "thinking" then
    { s with loading := true }
  else if ev.type == "token" then
    { s with streaming := true, loading := false,
             messages := tokenUpdate s.messages ev.text }
  else if ev.type == "complete" then
    { s with streaming := false, loading := false,
             messages := completeUpdate s.messages ev.text }
  else if ev.type == "user_voice_echo" then
    { s with input := if s.input != "" then s.input ++ " " ++ ev.text else ev.text }
  else if ev.type == "info" then
    s
  else if ev.type == "audio" then
    s
  else
    s

/-- Process a sequence of server events in arrival order. -/
def runEvents (s : ClientState) (es : List WsEvent) : ClientState :=
  es.foldl onMessage s

/-- A run is thinking-safe when every `thinking` event in it is processed in a
state whose `streaming` flag is false. -/
def thinkingSafeRun (s : ClientState) : List WsEvent → Bool
  | [] => true
  | e :: es => (e.type != "thinking" || !s.streaming) && thinkingSafeRun (onMessage s e) es

/-- A convenient initial `ChatPanel` state: empty chat, both flags false. -/
def initState : ClientState :=
  { messages := [], history := none, input := "", loading := false,
    streaming := false, isRecording := false, chatId := none,
    searchMode := "none", provider := "groq", model := "llama-3.3-70b-versatile",
    language := "English" }

/-- The chat payload built by `sendMessage` (App.jsx 1408 to 1415), with its
fields in source order. Note the field names: `search_mode` and
`research_mode`, not `mode`. -/
def chatPayload (userMsg searchMode provider model language : String) :
    List (String × JVal) :=
  [("message", .str userMsg),
   ("search_mode", .str searchMode),
   ("research_mode", .bool (searchMode == "deep_research")),
   ("provider", .str provider),
   ("model", .str model),
   ("language", .str language)]

/-- The payload sent when the microphone toggle turns voice capture on
(App.jsx 1357 to 1364). -/
def voiceToggleOnPayload (provider model searchMode language : String) :
    List (String × JVal) :=
  [("type", .str "voice_toggle"),
   ("active", .bool true),
   ("provider", .str provider),
   ("model", .str model),
   ("search_mode", .str searchMode),
   ("language", .str language)]

/-- The payload sent when the microphone toggle turns voice capture off
(App.jsx 1384 to 1387). -/
def voiceToggleOffPayload : List (String × JVal) :=
  [("type", .str "voice_toggle"), ("active", .bool false)]

/-- The JS `String.prototype.trim()`: strip leading and trailing whitespace.
Written over the character list so that it evaluates by kernel reduction. -/
def trimString (s : String) : String :=
  ⟨((s.data.dropWhile Char.isWhitespace).reverse.dropWhile Char.isWhitespace).reverse⟩

/-- The message text `sendMessage` works on: its explicit string argument if
one was passed, else the current input box (the `typeof text === 'string'`
check with default argument `input`). -/
def msgTextOf (s : ClientState) (textArg : Option String) : String :=
  match textArg with
  | some t => t
  | none => s.input

/-- The `sendMessage` handler (App.jsx 1392 to 1431). Returns the new state,
the WebSocket payloads sent, and the HTTP paths requested. `wsOpen` is the
`wsRef.current?.readyState === WebSocket.OPEN` test; `restResult` is the
outcome of the `postJSON` fallback when the socket is closed. -/
def sendMessage (s : ClientState) (wsOpen : Bool)
    (restResult : Except String String) (textArg : Option String) :
    ClientState × List WsMsg × List String :=
  let msgText := msgTextOf s textArg
  if trimString msgText == "" || s.loading || s.streaming then
    (s, [], [])
  else
    let userMsg := trimString msgText
    let s1 : ClientState :=
      match s.chatId with
      | some _ =>
          { s with input := "", chatId := none, history := none,
                   messages := [⟨"user", userMsg, false⟩] }
      | none =>
          { s with input := "",
                   messages := s.messages ++ [⟨"user", userMsg, false⟩] }
    let payload := WsMsg.json
      (chatPayload userMsg s.searchMode s.provider s.model s.language)
    if wsOpen then
      ({ s1 with loading := true }, [payload], [])
    else
      match restResult with
      | .ok resp =>
          ({ s1 with loading := false,
                     messages := s1.messages ++ [⟨"assistant", resp, false⟩] },
           [], ["/api/v1/chat"])
      | .error e =>
          ({ s1 with loading := false,
                     messages := s1.messages ++
                       [⟨"assistant", "Connection error: " ++ e, false⟩] },
           [], ["/api/v1/chat"])

/-- The audio-capture resources held in refs: the script processor, the audio
context and the media stream (App.jsx 1331 to 1342, 1370 to 1381). -/
structure AudioResources where
  processor : Bool
  audioContext : Bool
  mediaStream : Bool
deriving Repr, DecidableEq

/-- The `toggleRecording` handler (App.jsx 1323 to 1389). `wsOpen` is the
readiness test of the socket, `micOk` the outcome of `getUserMedia`. Returns
the new state, the new audio resources and the payloads sent. The handler
never reads `loading` or `streaming`. -/
def toggleRecording (s : ClientState) (res : AudioResources)
    (wsOpen : Bool) (micOk : Bool) :
    ClientState × AudioResources × List WsMsg :=
  if !wsOpen then
    (s, res, [])
  else if !s.isRecording then
    if micOk then
      ({ s with isRecording := true },
       ⟨true, true, true⟩,
       [WsMsg.json (voiceToggleOnPayload s.provider s.model s.searchMode s.language)])
    else
      (s, res, [])
  else
    ({ s with isRecording := false },
     ⟨false, false, false⟩,
     [WsMsg.json voiceToggleOffPayload])

/-- Clamp a float sample to the interval from -1 to 1:
`Math.max(-1, Math.min(1, floatData[i]))` (App.jsx 1348). Floats are modelled
as rationals. -/
def clampSample (x : ℚ) : ℚ := max (-1) (min 1 x)

/-- Scale a clamped sample to the 16-bit range:
`s < 0 ? s * 0x8000 : s * 0x7FFF` (App.jsx 1349). -/
def scaleSample (x : ℚ) : ℚ :=
  let s := clampSample x
  if s < 0 then s * 0x8000 else s * 0x7FFF

/-- Truncation toward zero of a rational, the integer-conversion step of the
`Int16Array` element store (JS ToIntegerOrInfinity). -/
def ratTrunc (x : ℚ) : ℤ := if x < 0 then -⌊-x⌋ else ⌊x⌋

/-- The JS ToInt16 conversion: truncate toward zero, then wrap into the signed
16-bit range modulo 2 to the 16th. -/
def toInt16 (x : ℚ) : ℤ := (ratTrunc x + 32768) % 65536 - 32768

/-- One `onaudioprocess` callback (App.jsx 1344 to 1354): convert every float
sample and send the frame as binary when the socket is open. -/
def onAudioProcess (floatData : List ℚ) (wsOpen : Bool) : List WsMsg :=
  if wsOpen then [WsMsg.binary (floatData.map (fun x => toInt16 (scaleSample x)))]
  else []

/-- The action the `ws.onclose` handler takes. -/
inductive CloseAction where
  | scheduleReconnect (delayMs : ℕ)
deriving Repr, DecidableEq

/-- The `ws.onclose` handler (App.jsx 1308 to 1311): on every close, the
client itself schedules `connectWS` again via `setTimeout(connectWS, 3000)`.
The handler does not depend on how many attempts came before. -/
def onCloseHandler (_attempt : ℕ) : CloseAction :=
  .scheduleReconnect 3000

/-- The delay the close handler schedules for a given attempt number. -/
def delayOfAttempt (n : ℕ) : ℕ :=
  match onCloseHandler n with
  | .scheduleReconnect d => d

/-- Modelled from the spec: the Memory Store backend is not among the
repository sources (only the frontend, docs and installers are); section 4.6
of the spec describes its interface. Facts are a key-to-value store, here an
association list where `setFact` creates or overwrites the binding of a key
and `getFact` looks a key up. -/
structure MemoryStore where
  facts : List (String × String)
deriving Repr, DecidableEq

/-- Modelled from the spec: `setFact(key, value)` creates or overwrites the
fact stored under `key`. -/
def MemoryStore.setFact (st : MemoryStore) (k v : String) : MemoryStore :=
  { st with facts := (k, v) :: st.facts.filter (fun p => p.1 != k) }

/-- Modelled from the spec: `getFact(key)` returns the value stored under
`key`, if any. -/
def MemoryStore.getFact (st : MemoryStore) (k : String) : Option String :=
  (st.facts.find? (fun p => p.1 == k)).map Prod.snd

/-! Helper lemmas about the message-list updaters and string concatenation. -/

theorem stringFoldl_append (l : List String) (a b : String) :
    l.foldl (fun r s => r ++ s) (a ++ b) = a ++ l.foldl (fun r s => r ++ s) b := by
  induction l generalizing b with
  | nil => rfl
  | cons t ts ih =>
      simp only [List.foldl_cons]
      rw [String.append_assoc, ih]

theorem stringJoin_cons (t : String) (ts : List String) :
    String.join (t :: ts) = t ++ String.join ts := by
  show (t :: ts).foldl (fun r s => r ++ s) "" = t ++ ts.foldl (fun r s => r ++ s) ""
  simp only [List.foldl_cons]
  have h : ("" : String) ++ t = t ++ "" := by simp
  rw [h, stringFoldl_append]

theorem tokenUpdate_concat (pre : List Message) (m : Message) (t : String)
    (hrole : m.role = "assistant") (hstr : m.streaming = true) :
    tokenUpdate (pre ++ [m]) t = pre ++ [{ m with content := m.content ++ t }] := by
  unfold tokenUpdate
  rw [List.getLast?_concat]
  simp [hrole, hstr]

theorem tokenUpdate_fresh (prev : List Message) (t : String)
    (h : isStreamingAssistant prev.getLast? = false) :
    tokenUpdate prev t = prev ++ [⟨"assistant", t, true⟩] := by
  unfold tokenUpdate
  cases hl : prev.getLast? with
  | none => rfl
  | some last =>
      rw [hl] at h
      simp only [isStreamingAssistant] at h
      simp [h]

theorem completeUpdate_concat (pre : List Message) (m : Message) (t : String)
    (hrole : m.role = "assistant") (hstr : m.streaming = true) :
    completeUpdate (pre ++ [m]) t
      = pre ++ [{ m with content := t, streaming := false }] := by
  unfold completeUpdate
  rw [List.getLast?_concat]
  simp [hrole, hstr]

theorem completeUpdate_fresh (prev : List Message) (t : String)
    (h : isStreamingAssistant prev.getLast? = false) :
    completeUpdate prev t = prev ++ [⟨"assistant", t, false⟩] := by
  unfold completeUpdate
  cases hl : prev.getLast? with
  | none => rfl
  | some last =>
      rw [hl] at h
      simp only [isStreamingAssistant] at h
      simp [h]

/-- C6 counterexample: the reconnection delay the close handler schedules is
3000 ms on every attempt; in particular it does not increase from the first
attempt to the second, refuting the backoff part of the claim. -/
theorem c6_counterexample :
    delayOfAttempt 0 = 3000 ∧ delayOfAttempt 1 = 3000 ∧
    ¬ delayOfAttempt 0 < delayOfAttempt 1 := by
  refine ⟨rfl, rfl, ?_⟩
  decide

/-- C6 (amended): reconnection is client-driven — after every WebSocket close
the handler itself schedules a reconnection attempt — but with a constant
3000 ms delay on every attempt, not a backoff. -/
theorem c6_reconnect_constant_delay (n : ℕ) :
    onCloseHandler n = .scheduleReconnect 3000 ∧
    delayOfAttempt (n + 1) = delayOfAttempt n :=
  ⟨rfl, rfl⟩

/-- C6 witness: the amended statement at attempt 0. -/
theorem c6_reconnect_constant_delay_witness :
    onCloseHandler 0 = .scheduleReconnect 3000 ∧
    delayOfAttempt 1 = delayOfAttempt 0 :=
  c6_reconnect_constant_delay 0

/-- C8: a fact set via setFact(k, v) is returned by getFact(k), whatever was
stored under k before (the Memory Store itself is modelled from the spec, see
`MemoryStore`). -/
theorem c8_fact_roundtrip (st : MemoryStore) (k v : String) :
    (st.setFact k v).getFact k = some v := by
  unfold MemoryStore.setFact MemoryStore.getFact
  rw [List.find?_cons_of_pos]
  · rfl
  · simp

/-- C9: an event whose type is none of the six recognized types — for example
a terminal error event — leaves the whole client state unchanged: the if/else
chain of ws.onmessage falls through without touching messages, loading,
streaming or input. -/
theorem c9_unknown_event (s : ClientState) (ev : WsEvent)
    (h : ev.type ∉ (["thinking", "token", "complete",
                     "user_voice_echo", "info", "audio"] : List String)) :
    onMessage s ev = s := by
  simp only [List.mem_cons, List.mem_singleton, not_or] at h
  obtain ⟨h1, h2, h3, h4, h5, h6⟩ := h
  unfold onMessage
  simp [h1, h2, h3, h4, h5, h6]

/-- C9 witness: a terminal error event is silently discarded. -/
theorem c9_unknown_event_witness :
    onMessage initState ⟨"error", "generation failed", ""⟩ = initState :=
  c9_unknown_event initState ⟨"error", "generation failed", ""⟩ (by decide)

theorem clampSample_mem (x : ℚ) : -1 ≤ clampSample x ∧ clampSample x ≤ 1 := by
  constructor
  · exact le_max_left _ _
  · exact max_le (by norm_num) (min_le_left _ _)

theorem scaleSample_bounds (x : ℚ) :
    -32768 ≤ scaleSample x ∧ scaleSample x ≤ 32767 := by
  obtain ⟨hlo, hhi⟩ := clampSample_mem x
  unfold scaleSample
  set s := clampSample x with hs
  by_cases hneg : s < 0
  · rw [if_pos hneg]
    constructor <;> nlinarith
  · rw [if_neg hneg]
    push_neg at hneg
    constructor <;> nlinarith

theorem ratTrunc_bounds (y : ℚ) (hlo : -32768 ≤ y) (hhi : y ≤ 32767) :
    -32768 ≤ ratTrunc y ∧ ratTrunc y ≤ 32767 := by
  unfold ratTrunc
  by_cases hneg : y < 0
  · rw [if_pos hneg]
    have h1 : (0 : ℤ) ≤ ⌊-y⌋ := Int.floor_nonneg.mpr (by linarith)
    have h2 : ⌊-y⌋ ≤ ⌊(32768 : ℚ)⌋ := Int.floor_le_floor (by linarith)
    have h3 : ⌊(32768 : ℚ)⌋ = 32768 := by norm_num
    omega
  · rw [if_neg hneg]
    push_neg at hneg
    have h1 : (0 : ℤ) ≤ ⌊y⌋ := Int.floor_nonneg.mpr hneg
    have h2 : ⌊y⌋ ≤ ⌊(32767 : ℚ)⌋ := Int.floor_le_floor hhi
    have h3 : ⌊(32767 : ℚ)⌋ = 32767 := by norm_num
    omega

theorem toInt16_no_wrap (y : ℚ) (hlo : -32768 ≤ y) (hhi : y ≤ 32767) :
    toInt16 y = ratTrunc y := by
  obtain ⟨h1, h2⟩ := ratTrunc_bounds y hlo hhi
  unfold toInt16
  have hmod : (ratTrunc y + 32768) % 65536 = ratTrunc y + 32768 :=
    Int.emod_eq_of_lt (by omega) (by omega)
  omega

/-- C10: every audio sample sent to the server stays inside the signed 16-bit
range. The clamp-then-scale conversion of onaudioprocess maps any input
(floats are modelled as rationals, which contain all finite doubles and keep
this arithmetic exact) into the interval from -32768 to 32767, and the
Int16Array store — truncation toward zero followed by wrapping modulo 2 to
the 16th — therefore never wraps: it is plain truncation. -/
theorem c10_sample_never_overflows (x : ℚ) :
    -32768 ≤ scaleSample x ∧ scaleSample x ≤ 32767 ∧
    -32768 ≤ toInt16 (scaleSample x) ∧ toInt16 (scaleSample x) ≤ 32767 ∧
    toInt16 (scaleSample x) = ratTrunc (scaleSample x) := by
  obtain ⟨hlo, hhi⟩ := scaleSample_bounds x
  obtain ⟨t1, t2⟩ := ratTrunc_bounds _ hlo hhi
  have hnw := toInt16_no_wrap _ hlo hhi
  exact ⟨hlo, hhi, by omega, by omega, hnw⟩

theorem onMessage_flag_invariant (s : ClientState) (e : WsEvent)
    (hs : (s.loading && s.streaming) = false)
    (he : (e.type != "thinking" || !s.streaming) = true) :
    ((onMessage s e).loading && (onMessage s e).streaming) = false := by
  by_cases h1 : e.type = "thinking"
  · have hstr : s.streaming = false := by
      rw [h1] at he
      simpa using he
    simp [onMessage, h1, hstr]
  · by_cases h2 : e.type = "token"
    · simp [onMessage, h1, h2]
    · by_cases h3 : e.type = "complete"
      · simp [onMessage, h1, h2, h3]
      · by_cases h4 : e.type = "user_voice_echo"
        · simpa [onMessage, h1, h2, h3, h4] using hs
        · by_cases h5 : e.type = "info"
          · simpa [onMessage, h1, h2, h3, h4, h5] using hs
          · by_cases h6 : e.type = "audio"
            · simpa [onMessage, h1, h2, h3, h4, h5, h6] using hs
            · simpa [onMessage, h1, h2, h3, h4, h5, h6] using hs

/-- C1 counterexample: from the initial state (both flags false), processing a
token event and then a thinking event leaves loading and streaming both true,
because the thinking branch only sets loading and never clears streaming. So
the invariant as claimed fails on this two-event sequence. -/
theorem c1_counterexample :
    (runEvents initState [⟨"token", "4", ""⟩, ⟨"thinking", "", ""⟩]).loading = true ∧
    (runEvents initState [⟨"token", "4", ""⟩, ⟨"thinking", "", ""⟩]).streaming = true := by
  constructor <;> rfl

/-- C1 (amended): starting from a state where loading and streaming are not
both true, after processing any sequence of server events in which every
thinking event arrives while streaming is false, loading and streaming are
never simultaneously true. (The restriction is forced: a thinking event
processed while streaming leaves both flags set, see the counterexample.) -/
theorem c1_flags_mutually_exclusive (es : List WsEvent) (s : ClientState)
    (hs : (s.loading && s.streaming) = false)
    (hw : thinkingSafeRun s es = true) :
    ((runEvents s es).loading && (runEvents s es).streaming) = false := by
  induction es generalizing s with
  | nil => exact hs
  | cons e es ih =>
      simp only [thinkingSafeRun, Bool.and_eq_true] at hw
      exact ih (onMessage s e) (onMessage_flag_invariant s e hs hw.1) hw.2

/-- C1 witness: the amended invariant on the well-formed run
thinking, token, complete from the initial state. -/
theorem c1_flags_mutually_exclusive_witness :
    ((runEvents initState
        [⟨"thinking", "", ""⟩, ⟨"token", "4", ""⟩, ⟨"complete", "4", ""⟩]).loading &&
     (runEvents initState
        [⟨"thinking", "", ""⟩, ⟨"token", "4", ""⟩, ⟨"complete", "4", ""⟩]).streaming) = false :=
  c1_flags_mutually_exclusive
    [⟨"thinking", "", ""⟩, ⟨"token", "4", ""⟩, ⟨"complete", "4", ""⟩]
    initState rfl (by decide)

/-- C2: a sendMessage call whose trimmed text is empty, or made while loading
or streaming is set, is a no-op: the state (message list included) is
unchanged, no WebSocket payload is sent and no HTTP request is issued. -/
theorem c2_sendMessage_noop (s : ClientState) (wsOpen : Bool)
    (r : Except String String) (t : Option String)
    (h : trimString (msgTextOf s t) = "" ∨ s.loading = true ∨ s.streaming = true) :
    sendMessage s wsOpen r t = (s, [], []) := by
  unfold sendMessage
  rcases h with h | h | h <;> simp [h]

/-- C2 witness: sending while loading is set changes nothing. -/
theorem c2_sendMessage_noop_witness :
    sendMessage { initState with input := "hello", loading := true } true
        (Except.ok "reply") none
      = ({ initState with input := "hello", loading := true }, [], []) :=
  c2_sendMessage_noop { initState with input := "hello", loading := true } true
    (Except.ok "reply") none (Or.inr (Or.inl rfl))

/-- C3: while the last message is a streaming assistant message, a sequence of
token events appends each chunk in arrival order, so the accumulated content
is the previous content followed by the concatenation of the chunks; and when
no trailing streaming assistant message exists, a token event appends a fresh
streaming assistant message holding just its chunk. -/
theorem c3_token_accumulation :
    (∀ (s : ClientState) (pre : List Message) (m : Message) (ts : List String),
       s.messages = pre ++ [m] → m.role = "assistant" → m.streaming = true →
       (runEvents s (ts.map (fun t => ⟨"token", t, ""⟩))).messages
         = pre ++ [{ m with content := m.content ++ String.join ts }]) ∧
    (∀ (s : ClientState) (t : String),
       isStreamingAssistant s.messages.getLast? = false →
       (onMessage s ⟨"token", t, ""⟩).messages
         = s.messages ++ [⟨"assistant", t, true⟩]) := by
  constructor
  · intro s pre m ts
    induction ts generalizing s m with
    | nil =>
        intro hmsg hrole hstr
        have h0 : m.content ++ String.join [] = m.content := by
          show m.content ++ "" = m.content
          exact String.append_empty m.content
        simp only [List.map_nil, runEvents, List.foldl_nil, h0]
        exact hmsg
    | cons t ts ih =>
        intro hmsg hrole hstr
        have hstep : (onMessage s ⟨"token", t, ""⟩).messages
            = pre ++ [{ m with content := m.content ++ t }] := by
          simp [onMessage, hmsg, tokenUpdate_concat pre m t hrole hstr]
        have := ih (onMessage s ⟨"token", t, ""⟩)
          { m with content := m.content ++ t } hstep hrole hstr
        simp only [List.map_cons, runEvents, List.foldl_cons] at this ⊢
        rw [this, stringJoin_cons, String.append_assoc]
  · intro s t h
    simp [onMessage, tokenUpdate_fresh s.messages t h]

/-- C3 witness: two chunks accumulate onto a trailing streaming assistant
message, and a chunk arriving with no streaming assistant message starts a
fresh one. -/
theorem c3_token_accumulation_witness :
    (runEvents { initState with messages := [⟨"assistant", "2+", true⟩] }
        (["2", "=4"].map (fun t => (⟨"token", t, ""⟩ : WsEvent)))).messages
      = [] ++ [{ (⟨"assistant", "2+", true⟩ : Message) with
                   content := "2+" ++ String.join ["2", "=4"] }] ∧
    (onMessage initState ⟨"token", "hi", ""⟩).messages
      = initState.messages ++ [⟨"assistant", "hi", true⟩] :=
  ⟨c3_token_accumulation.1 _ [] ⟨"assistant", "2+", true⟩ ["2", "=4"] rfl rfl rfl,
   c3_token_accumulation.2 initState "hi" rfl⟩

/-- C4: a complete event finalizes the turn: loading and streaming end up
false; a trailing streaming assistant message has its content replaced
wholesale by the final text (not by the concatenation of earlier chunks) and
its streaming flag cleared; with no trailing streaming assistant message, a
fresh assistant message carrying the final text is appended. -/
theorem c4_complete_finalizes (s : ClientState) (text : String) :
    (onMessage s ⟨"complete", text, ""⟩).loading = false ∧
    (onMessage s ⟨"complete", text, ""⟩).streaming = false ∧
    (∀ pre m, s.messages = pre ++ [m] → m.role = "assistant" → m.streaming = true →
       (onMessage s ⟨"complete", text, ""⟩).messages
         = pre ++ [{ m with content := text, streaming := false }]) ∧
    (isStreamingAssistant s.messages.getLast? = false →
       (onMessage s ⟨"complete", text, ""⟩).messages
         = s.messages ++ [⟨"assistant", text, false⟩]) := by
  refine ⟨by simp [onMessage], by simp [onMessage], ?_, ?_⟩
  · intro pre m hmsg hrole hstr
    simp [onMessage, hmsg, completeUpdate_concat pre m text hrole hstr]
  · intro h
    simp [onMessage, completeUpdate_fresh s.messages text h]

/-- C4 witness: completing over a trailing streaming assistant message whose
accumulated content differs from the final text replaces it wholesale. -/
theorem c4_complete_finalizes_witness :
    (onMessage { initState with messages := [⟨"assistant", "2+2", true⟩],
                                streaming := true }
        ⟨"complete", "2+2 = 4", ""⟩).loading = false ∧
    (onMessage { initState with messages := [⟨"assistant", "2+2", true⟩],
                                streaming := true }
        ⟨"complete", "2+2 = 4", ""⟩).streaming = false ∧
    (onMessage { initState with messages := [⟨"assistant", "2+2", true⟩],
                                streaming := true }
        ⟨"complete", "2+2 = 4", ""⟩).messages
      = [] ++ [{ (⟨"assistant", "2+2", true⟩ : Message) with
                   content := "2+2 = 4", streaming := false }] := by
  refine ⟨(c4_complete_finalizes _ "2+2 = 4").1,
          (c4_complete_finalizes _ "2+2 = 4").2.1,
          (c4_complete_finalizes _ "2+2 = 4").2.2.1 [] ⟨"assistant", "2+2", true⟩
            rfl rfl rfl⟩

/-- The shape of a chat submission as actually sent: a JSON object whose keys
are exactly message, search_mode, research_mode, provider, model, language in
that order. -/
def isChatShape : WsMsg → Bool
  | .json fs => fs.map Prod.fst
      == ["message", "search_mode", "research_mode", "provider", "model", "language"]
  | .binary _ => false

/-- The shape of a voice toggle as actually sent: a JSON object whose first
field is type with value voice_toggle and which carries a boolean active
field. -/
def isVoiceToggleShape : WsMsg → Bool
  | .json fs =>
      (fs.head? == some ("type", JVal.str "voice_toggle")) &&
      fs.any (fun p => p.1 == "active" &&
        match p.2 with
        | .bool _ => true
        | .str _ => false)
  | .binary _ => false

/-- A raw binary audio frame. -/
def isAudioFrame : WsMsg → Bool
  | .binary _ => true
  | .json _ => false

/-- C5 counterexample: a chat submission over the open socket sends exactly the
chatPayload object, and that object has no field named mode — its mode-like
fields are search_mode and research_mode — refuting the claimed shape
{message, mode, provider?, model?, language?}. -/
theorem c5_counterexample :
    (sendMessage { initState with input := "hello" } true (Except.ok "") none).2.1
      = [WsMsg.json (chatPayload "hello" "none" "groq"
          "llama-3.3-70b-versatile" "English")] ∧
    "mode" ∉ (chatPayload "hello" "none" "groq"
          "llama-3.3-70b-versatile" "English").map Prod.fst := by
  constructor
  · decide
  · decide

/-- C5 (amended): every client-to-server message has one of exactly three
shapes — a chat object with fields {message, search_mode, research_mode,
provider, model, language} (so chat submissions carry search_mode, not mode),
a voice-toggle object {type: voice_toggle, active: bool, ...}, or a raw
binary audio frame. -/
theorem c5_outbound_shapes (s : ClientState) (res : AudioResources)
    (wsOpen micOk : Bool) (r : Except String String) (t : Option String)
    (floatData : List ℚ) :
    (∀ m ∈ (sendMessage s wsOpen r t).2.1, isChatShape m = true) ∧
    (∀ m ∈ (toggleRecording s res wsOpen micOk).2.2, isVoiceToggleShape m = true) ∧
    (∀ m ∈ onAudioProcess floatData wsOpen, isAudioFrame m = true) := by
  refine ⟨?_, ?_, ?_⟩
  · intro m hm
    unfold sendMessage at hm
    by_cases hguard : trimString (msgTextOf s t) == "" || s.loading || s.streaming
    · simp [hguard] at hm
    · simp only [hguard, Bool.false_eq_true, if_false] at hm
      cases s.chatId <;> cases wsOpen <;> cases r <;>
        simp_all [isChatShape, chatPayload]
  · intro m hm
    unfold toggleRecording at hm
    cases wsOpen <;> cases hrec : s.isRecording <;> cases micOk <;>
      simp_all [isVoiceToggleShape, voiceToggleOnPayload, voiceToggleOffPayload]
  · intro m hm
    unfold onAudioProcess at hm
    cases wsOpen <;> simp_all [isAudioFrame]

/-- C5 witness: the three shapes at concrete calls — a chat submission, a
voice-capture activation, and an audio frame. -/
theorem c5_outbound_shapes_witness :
    (∀ m ∈ (sendMessage { initState with input := "hello" } true
              (Except.ok "") none).2.1, isChatShape m = true) ∧
    (∀ m ∈ (toggleRecording initState ⟨false, false, false⟩ true true).2.2,
       isVoiceToggleShape m = true) ∧
    (∀ m ∈ onAudioProcess [(1 : ℚ) / 2] true, isAudioFrame m = true) :=
  c5_outbound_shapes { initState with input := "hello" } ⟨false, false, false⟩
    true true (Except.ok "") none [(1 : ℚ) / 2]

/-- C7: the microphone toggle is orthogonal to the generation state machine:
it changes at most the isRecording flag of the client state (messages, input,
history, loading and streaming are untouched), every payload it sends is a
voice_toggle message, and its outcome — resulting isRecording flag, audio
resources and payloads — never depends on loading or streaming. -/
theorem c7_toggle_orthogonal (s : ClientState) (res : AudioResources)
    (wsOpen micOk : Bool) :
    ((toggleRecording s res wsOpen micOk).1
       = { s with isRecording := (toggleRecording s res wsOpen micOk).1.isRecording }) ∧
    (∀ m ∈ (toggleRecording s res wsOpen micOk).2.2, isVoiceToggleShape m = true) ∧
    (∀ l b : Bool,
       (toggleRecording { s with loading := l, streaming := b } res wsOpen micOk).1.isRecording
         = (toggleRecording s res wsOpen micOk).1.isRecording ∧
       (toggleRecording { s with loading := l, streaming := b } res wsOpen micOk).2
         = (toggleRecording s res wsOpen micOk).2) := by
  refine ⟨?_, ?_, ?_⟩
  · obtain ⟨msgs, hist, inp, ld, st, rec, cid, sm, pv, md, lg⟩ := s
    cases wsOpen <;> cases rec <;> cases micOk <;> simp [toggleRecording]
  · intro m hm
    unfold toggleRecording at hm
    cases wsOpen <;> cases hrec : s.isRecording <;> cases micOk <;>
      simp_all [isVoiceToggleShape, voiceToggleOnPayload, voiceToggleOffPayload]
  · intro l b
    cases wsOpen <;> cases hrec : s.isRecording <;> cases micOk <;>
      simp_all [toggleRecording]

/-- C7 witness: toggling the microphone on while loading is set leaves
everything but the recording flag unchanged, sends only a voice_toggle
payload, and behaves the same regardless of the flags. -/
theorem c7_toggle_orthogonal_witness :
    ((toggleRecording { initState with loading := true } ⟨false, false, false⟩ true true).1
       = { { initState with loading := true } with
             isRecording := (toggleRecording { initState with loading := true }
               ⟨false, false, false⟩ true true).1.isRecording }) ∧
    (∀ m ∈ (toggleRecording { initState with loading := true }
              ⟨false, false, false⟩ true true).2.2, isVoiceToggleShape m = true) ∧
    (∀ l b : Bool,
       (toggleRecording { { initState with loading := true } with
            loading := l, streaming := b } ⟨false, false, false⟩ true true).1.isRecording
         = (toggleRecording { initState with loading := true }
              ⟨false, false, false⟩ true true).1.isRecording ∧
       (toggleRecording { { initState with loading := true } with
            loading := l, streaming := b } ⟨false, false, false⟩ true true).2
         = (toggleRecording { initState with loading := true }
              ⟨false, false, false⟩ true true).2) :=
  c7_toggle_orthogonal { initState with loading := true } ⟨false, false, false⟩ true true
